import Mathlib

set_option linter.unusedVariables false

/-!
Shallow embedding of the Linux Command Automation Toolkit
(`src/LCAT.py`, class `LinuxCommandToolkit`).

Conventions of the embedding:
* Python `Dict` results become the fixed record `ExecResult`; a key that a
  branch does not set becomes `none`.
* `subprocess.run` is modelled by the oracle type `SpawnOutcome`: the
  environment decides whether the child terminates normally (with an exit
  code and captured output), times out, or fails to launch (raising an
  exception whose message is carried by `failed`).
* The operating-system state touched by `cd` (`os.getcwd`, `os.chdir`,
  `os.path.expanduser`) is modelled by `OSState`: `cwd` and `home` are
  normalized absolute paths and `dirs` lists the directories into which
  `os.chdir` succeeds.
* Every call of `subprocess.run` (the process-spawning primitive) is
  recorded in `ToolkitState.spawned`, so "spawns no child process" is the
  statement that `spawned` is unchanged.
-/

/-- Execution Result: the dictionary shape produced by `_execute_command`,
`cd`, `who_am_i` and `pwd`. A `summary` is a key/value pair such as
`("username", u)` or `("current_directory", d)`. -/
structure ExecResult where
  command : String
  returncode : Option Int
  stdout : Option String
  stderr : Option String
  success : Bool
  error : Option String
  summary : Option (String × String)
deriving DecidableEq, Repr

/-- Outcome of one `subprocess.run` call, decided by the environment. -/
inductive SpawnOutcome where
  | completed (returncode : Int) (stdout : String) (stderr : String)
  | timedOut
  | failed (message : String)
deriving DecidableEq, Repr

/-- Operating-system state used by `cd`: current working directory, home
directory, and the set of directories `os.chdir` can enter. -/
structure OSState where
  cwd : String
  home : String
  dirs : List String
deriving DecidableEq, Repr

/-- State of one `LinuxCommandToolkit` instance plus its environment:
`history` is `self.history`; `spawned` records each argument vector handed
to the process-spawning primitive. -/
structure ToolkitState where
  history : List ExecResult
  spawned : List (List String)
  os : OSState
deriving DecidableEq, Repr

/-- Python `' '.join(command)`. -/
def joinSpace : List String → String
  | [] => ""
  | [s] => s
  | s :: rest => s ++ " " ++ joinSpace rest

/-- Python `','.join(fields)`. -/
def joinComma : List String → String
  | [] => ""
  | [s] => s
  | s :: rest => s ++ "," ++ joinComma rest

/-- Python `f-string` octal formatting `f'{m:o}'`. -/
def toOctalString (m : Int) : String :=
  if m < 0 then "-" ++ String.mk (Nat.toDigits 8 m.natAbs)
  else String.mk (Nat.toDigits 8 m.toNat)

/-- Python `os.path.dirname` for POSIX paths: keep everything up to and
including the final slash, then strip trailing slashes unless the head
consists only of slashes. -/
def dirname (p : String) : String :=
  let head := (p.data.reverse.dropWhile (fun c => c != '/')).reverse
  if !head.isEmpty && head.any (fun c => c != '/') then
    String.mk (head.reverse.dropWhile (fun c => c == '/')).reverse
  else
    String.mk head

/-- Python `str.strip()`: drop leading and trailing whitespace. -/
def pyStrip (s : String) : String :=
  String.mk ((s.data.dropWhile Char.isWhitespace).reverse.dropWhile
    Char.isWhitespace).reverse

/-- Message of the `subprocess.TimeoutExpired` branch of `_execute_command`. -/
def timeoutMessage : String := "Command timed out (>30 seconds)"

/-- `_execute_command`: run the vector, normalize the outcome into an
`ExecResult`. On normal termination the result is appended to `history`
and `success` is `returncode == 0`; the timeout and generic-exception
branches return early (no history append) with no exit code. The function
is total: no failure mode escapes to the caller. -/
def executeCommand (st : ToolkitState) (command : List String)
    (capture_output : Bool) (outcome : SpawnOutcome) :
    ExecResult × ToolkitState :=
  match outcome with
  | .completed returncode out err =>
    let output : ExecResult :=
      { command := joinSpace command
        returncode := some returncode
        stdout := if capture_output then some out else none
        stderr := if capture_output then some err else none
        success := decide (returncode = 0)
        error := none
        summary := none }
    (output, { st with history := st.history ++ [output],
                       spawned := st.spawned ++ [command] })
  | .timedOut =>
    ({ command := joinSpace command, returncode := none, stdout := none,
       stderr := none, success := false, error := some timeoutMessage,
       summary := none },
     { st with spawned := st.spawned ++ [command] })
  | .failed msg =>
    ({ command := joinSpace command, returncode := none, stdout := none,
       stderr := none, success := false, error := some msg, summary := none },
     { st with spawned := st.spawned ++ [command] })

/-- Argument vector of `who_am_i`. -/
def whoamiCommand : List String := ["whoami"]

/-- `who_am_i`: run `whoami`; on success attach `summary.username`, the
stripped standard output. Python mutates the result dict in place, so the
aliased history entry receives the summary as well. -/
def who_am_i (st : ToolkitState) (outcome : SpawnOutcome) :
    ExecResult × ToolkitState :=
  let r := executeCommand st whoamiCommand true outcome
  if r.1.success then
    let updated := { r.1 with summary := some ("username", pyStrip (r.1.stdout.getD "")) }
    (updated, { r.2 with history := r.2.history.dropLast ++ [updated] })
  else
    (r.1, r.2)

/-- Argument vector of `pwd`. -/
def pwdCommand : List String := ["pwd"]

/-- `pwd`: run `pwd`; on success attach `summary.current_directory`, the
stripped standard output. -/
def pwd (st : ToolkitState) (outcome : SpawnOutcome) :
    ExecResult × ToolkitState :=
  let r := executeCommand st pwdCommand true outcome
  if r.1.success then
    let updated := { r.1 with summary := some ("current_directory", pyStrip (r.1.stdout.getD "")) }
    (updated, { r.2 with history := r.2.history.dropLast ++ [updated] })
  else
    (r.1, r.2)

/-- Vector built by `ls`. `if sort_by:` is Python truthiness: `None` and
`""` are falsy. -/
def lsCommand (path : String) (long_format : Bool) (all_files : Bool)
    (sort_by : Option String) : List String :=
  let command := ["ls"]
  let command := if long_format then command ++ ["-l"] else command
  let command := if all_files then command ++ ["-a"] else command
  let command :=
    match sort_by with
    | some s =>
      if s ≠ "" then
        if s = "name" then command ++ ["-X"]
        else if s = "size" then command ++ ["-S"]
        else if s = "time" then command ++ ["-t"]
        else command
      else command
    | none => command
  command ++ [path]

/-- Vector built by `mkdir`; `mode` uses `is not None`, so any integer
(octal-formatted) is included. -/
def mkdirCommand (dir_name : String) (parents : Bool) (verbose : Bool)
    (mode : Option Int) : List String :=
  let command := ["mkdir"]
  let command := if parents then command ++ ["-p"] else command
  let command := if verbose then command ++ ["-v"] else command
  let command :=
    match mode with
    | some m => command ++ ["-m" ++ toOctalString m]
    | none => command
  command ++ [dir_name]

/-- Vector built by `touch`. -/
def touchCommand (file_name : String) (create_new : Bool) (verbose : Bool) :
    List String :=
  let command := ["touch"]
  let command := if create_new then command ++ ["-c"] else command
  let command := if verbose then command ++ ["-v"] else command
  command ++ [file_name]

/-- Vector built by `rm`. -/
def rmCommand (paths : List String) (recursive : Bool) (force : Bool)
    (interactive : Bool) (verbose : Bool) (dir_mode : Bool) : List String :=
  let command := ["rm"]
  let command := if recursive then command ++ ["-r"] else command
  let command := if force then command ++ ["-f"] else command
  let command := if interactive then command ++ ["-i"] else command
  let command := if verbose then command ++ ["-v"] else command
  let command := if dir_mode then command ++ ["-d"] else command
  command ++ paths

/-- Vector built by `chmod`. -/
def chmodCommand (path : String) (mode : String) (recursive : Bool)
    (verbose : Bool) : List String :=
  let command := ["chmod"]
  let command := if recursive then command ++ ["-r"] else command
  let command := if verbose then command ++ ["-v"] else command
  command ++ [mode, path]

/-- Vector built by `chown`. `if group:` is truthiness: `None` and `""`
fall back to plain `owner`. -/
def chownCommand (path : String) (owner : String) (group : Option String)
    (recursive : Bool) : List String :=
  let command := ["chown"]
  let command := if recursive then command ++ ["-R"] else command
  let command :=
    match group with
    | some g => if g ≠ "" then command ++ [owner ++ ":" ++ g] else command ++ [owner]
    | none => command ++ [owner]
  command ++ [path]

/-- Vector built by `ps`. `if filter:` and `if format_fields:` are
truthiness tests: empty string and empty list are falsy. -/
def psCommand (filter : Option String) (show_all : Bool)
    (format_fields : Option (List String)) : List String :=
  let command := ["ps"]
  let command := if show_all then command ++ ["-e"] else command
  let command :=
    match filter with
    | some f => if f ≠ "" then command ++ ["-C", f] else command
    | none => command
  let command :=
    match format_fields with
    | some fs => if fs ≠ [] then command ++ ["-o", joinComma fs] else command
    | none => command
  command

/-- Vector built by `kill`. -/
def killCommand (pid : Int) (signal : String) : List String :=
  ["kill", "-" ++ signal, toString pid]

/-- Vector built by `top`. Note `'-o %CPU'` / `'-o %MEM'` are appended as
single elements; `delay` is accepted but unused by the source. -/
def topCommand (interactions : Int) (batch_mode : Bool) (sort_by : String)
    (delay : Int) : List String :=
  let command := ["top"]
  let command := if batch_mode then command ++ ["-b"] else command
  let command := command ++ ["-n", toString interactions]
  let command :=
    if sort_by = "cpu" then command ++ ["-o %CPU"]
    else if sort_by = "mem" then command ++ ["-o %MEM"]
    else command
  command

/-- Vector built by `free`. -/
def freeCommand (human_readable : Bool) : List String :=
  let command := ["free"]
  if human_readable then command ++ ["-h"] else command

/-- Vector built by `grep`; `pattern` and `file_path` are appended
verbatim. -/
def grepCommand (pattern : String) (file_path : String) (ignore_case : Bool)
    (recursive : Bool) : List String :=
  let command := ["grep"]
  let command := if ignore_case then command ++ ["-i"] else command
  let command := if recursive then command ++ ["-r"] else command
  command ++ [pattern, file_path]

/-- Vector built by `find`. The four string options use truthiness
(`if name_pattern:` etc.); `max_depth` uses `is not None`. -/
def findCommand (path : String) (name_pattern : Option String)
    (file_type : Option String) (min_size : Option String)
    (max_size : Option String) (max_depth : Option Int) : List String :=
  let command := ["find", path]
  let command :=
    match name_pattern with
    | some s => if s ≠ "" then command ++ ["-name", s] else command
    | none => command
  let command :=
    match file_type with
    | some t => if t ≠ "" then command ++ ["-type", t] else command
    | none => command
  let command :=
    match min_size with
    | some s => if s ≠ "" then command ++ ["-size", "+" ++ s] else command
    | none => command
  let command :=
    match max_size with
    | some s => if s ≠ "" then command ++ ["-size", "-" ++ s] else command
    | none => command
  let command :=
    match max_depth with
    | some d => command ++ ["-maxdepth", toString d]
    | none => command
  command

/-- `cd`: resolve the special targets (`None`/`"~"` to home, `"."` to the
current directory, `".."` to its dirname), then `os.chdir`. On success the
result (with `summary.current_directory` set to the new `os.getcwd()`) is
appended to history; the exception branch returns early without
appending. No subprocess is involved. The text of the OS exception is
modelled. -/
def cd (st : ToolkitState) (path : Option String) : ExecResult × ToolkitState :=
  let target :=
    match path with
    | none => st.os.home
    | some p =>
      if p = "~" then st.os.home
      else if p = "." then st.os.cwd
      else if p = ".." then dirname st.os.cwd
      else p
  if target ∈ st.os.dirs then
    let result : ExecResult :=
      { command := "cd " ++ target
        returncode := none
        stdout := none
        stderr := none
        success := true
        error := none
        summary := some ("current_directory", target) }
    (result, { st with os := { st.os with cwd := target },
                       history := st.history ++ [result] })
  else
    ({ command := "cd " ++ target, returncode := none, stdout := none,
       stderr := none, success := false,
       error := some ("No such file or directory: " ++ target),
       summary := none }, st)

/-- The toolkit operations that delegate to the Executor. -/
def ls (st : ToolkitState) (path : String) (long_format : Bool)
    (all_files : Bool) (sort_by : Option String) (outcome : SpawnOutcome) :
    ExecResult × ToolkitState :=
  executeCommand st (lsCommand path long_format all_files sort_by) true outcome

def mkdir (st : ToolkitState) (dir_name : String) (parents : Bool)
    (verbose : Bool) (mode : Option Int) (outcome : SpawnOutcome) :
    ExecResult × ToolkitState :=
  executeCommand st (mkdirCommand dir_name parents verbose mode) true outcome

def touch (st : ToolkitState) (file_name : String) (create_new : Bool)
    (verbose : Bool) (outcome : SpawnOutcome) : ExecResult × ToolkitState :=
  executeCommand st (touchCommand file_name create_new verbose) true outcome

def rm (st : ToolkitState) (paths : List String) (recursive : Bool)
    (force : Bool) (interactive : Bool) (verbose : Bool) (dir_mode : Bool)
    (outcome : SpawnOutcome) : ExecResult × ToolkitState :=
  executeCommand st (rmCommand paths recursive force interactive verbose dir_mode)
    true outcome

def chmod (st : ToolkitState) (path : String) (mode : String)
    (recursive : Bool) (verbose : Bool) (outcome : SpawnOutcome) :
    ExecResult × ToolkitState :=
  executeCommand st (chmodCommand path mode recursive verbose) true outcome

def chown (st : ToolkitState) (path : String) (owner : String)
    (group : Option String) (recursive : Bool) (outcome : SpawnOutcome) :
    ExecResult × ToolkitState :=
  executeCommand st (chownCommand path owner group recursive) true outcome

def ps (st : ToolkitState) (filter : Option String) (show_all : Bool)
    (format_fields : Option (List String)) (outcome : SpawnOutcome) :
    ExecResult × ToolkitState :=
  executeCommand st (psCommand filter show_all format_fields) true outcome

def kill (st : ToolkitState) (pid : Int) (signal : String)
    (outcome : SpawnOutcome) : ExecResult × ToolkitState :=
  executeCommand st (killCommand pid signal) true outcome

def top (st : ToolkitState) (interactions : Int) (batch_mode : Bool)
    (sort_by : String) (delay : Int) (outcome : SpawnOutcome) :
    ExecResult × ToolkitState :=
  executeCommand st (topCommand interactions batch_mode sort_by delay) true outcome

def free (st : ToolkitState) (human_readable : Bool) (outcome : SpawnOutcome) :
    ExecResult × ToolkitState :=
  executeCommand st (freeCommand human_readable) true outcome

def grep (st : ToolkitState) (pattern : String) (file_path : String)
    (ignore_case : Bool) (recursive : Bool) (outcome : SpawnOutcome) :
    ExecResult × ToolkitState :=
  executeCommand st (grepCommand pattern file_path ignore_case recursive)
    true outcome

def find (st : ToolkitState) (path : String) (name_pattern : Option String)
    (file_type : Option String) (min_size : Option String)
    (max_size : Option String) (max_depth : Option Int)
    (outcome : SpawnOutcome) : ExecResult × ToolkitState :=
  executeCommand st
    (findCommand path name_pattern file_type min_size max_size max_depth)
    true outcome

/-- A freshly constructed toolkit (`__init__` sets `history = []`) in a
small concrete environment, used by concrete instances. -/
def initToolkit : ToolkitState :=
  { history := []
    spawned := []
    os := { cwd := "/home/user/work"
            home := "/home/user"
            dirs := ["/", "/home", "/home/user", "/home/user/work"] } }

example : toOctalString 0o755 = "755" := by decide
example : toOctalString 0 = "0" := by decide
example : toOctalString (-9) = "-11" := by decide
example : dirname "/home/user/work" = "/home/user" := by decide
example : dirname "/" = "/" := by decide
example : dirname "/a" = "/" := by decide
example : dirname "abc" = "" := by decide
example : joinSpace ["a", "b", "c"] = "a b c" := by decide

/-- C2: `_execute_command` never raises to its caller (it is a total
function of the spawn outcome); on timeout it returns `success = false`,
no exit code, and the error message naming the 30-second timeout; on any
other launch failure it returns `success = false`, no exit code, and the
underlying failure message. -/
theorem execute_failure_semantics (st : ToolkitState) (command : List String)
    (co : Bool) (msg : String) :
    ((executeCommand st command co .timedOut).1.success = false ∧
     (executeCommand st command co .timedOut).1.returncode = none ∧
     (executeCommand st command co .timedOut).1.error
        = some "Command timed out (>30 seconds)") ∧
    ((executeCommand st command co (.failed msg)).1.success = false ∧
     (executeCommand st command co (.failed msg)).1.returncode = none ∧
     (executeCommand st command co (.failed msg)).1.error = some msg) :=
  ⟨⟨rfl, rfl, rfl⟩, rfl, rfl, rfl⟩

/-- C3: when the child terminates normally, the result's success flag is
true exactly when the exit code is zero. -/
theorem success_iff_returncode_zero (st : ToolkitState) (command : List String)
    (co : Bool) (rc : Int) (out err : String) :
    (executeCommand st command co (.completed rc out err)).1.success = true
      ↔ rc = 0 := by
  simp [executeCommand]

/-- C5: `mkdir("foo", parents := true, mode := 0o755)` builds
`["mkdir", "-p", "-m755", "foo"]`; in general the flags appear in the
order parents, verbose, mode, followed by the directory name. -/
theorem mkdir_vector :
    mkdirCommand "foo" true false (some 0o755) = ["mkdir", "-p", "-m755", "foo"] ∧
    ∀ d pa v m, mkdirCommand d pa v m =
      ["mkdir"] ++ (if pa then ["-p"] else []) ++ (if v then ["-v"] else [])
        ++ (match m with
            | some x => ["-m" ++ toOctalString x]
            | none => []) ++ [d] := by
  refine ⟨by decide, ?_⟩
  intro d pa v m
  cases pa <;> cases v <;> cases m <;> rfl

/-- C6: `rm(["a","b"], recursive := true, force := true)` builds
`["rm", "-r", "-f", "a", "b"]`; in general the flags appear in the order
recursive, force, interactive, verbose, dir-mode, followed by all paths
in order. -/
theorem rm_vector :
    rmCommand ["a", "b"] true true false false false = ["rm", "-r", "-f", "a", "b"] ∧
    ∀ ps r f i v d, rmCommand ps r f i v d =
      ["rm"] ++ (if r then ["-r"] else []) ++ (if f then ["-f"] else [])
        ++ (if i then ["-i"] else []) ++ (if v then ["-v"] else [])
        ++ (if d then ["-d"] else []) ++ ps := by
  refine ⟨by decide, ?_⟩
  intro ps r f i v d
  cases r <;> cases f <;> cases i <;> cases v <;> cases d <;> rfl

/-- C7: the `top` vector starts with `"top"`; batch mode contributes `-b`,
the cycle count contributes `-n` followed by the count, and sorting by
cpu or mem contributes the element `-o %CPU` or `-o %MEM` respectively,
in that order. -/
theorem top_vector (i : Int) (b : Bool) (s : String) (d : Int) :
    (topCommand i b s d).head? = some "top" ∧
    topCommand i b s d =
      ["top"] ++ (if b then ["-b"] else []) ++ ["-n", toString i]
        ++ (if s = "cpu" then ["-o %CPU"]
            else if s = "mem" then ["-o %MEM"] else []) := by
  unfold topCommand
  cases b <;> split_ifs <;> exact ⟨rfl, rfl⟩

/-- C9: an option supplied as the empty string is treated like an absent
option: `ps` with `filter = ""` builds the same vector as with no filter,
and `find` with an empty `name_pattern`, `file_type`, `min_size` or
`max_size` builds the same vector as with that option absent. -/
theorem empty_option_omitted :
    (∀ sa ff, psCommand (some "") sa ff = psCommand none sa ff) ∧
    (∀ p ft mn mx md, findCommand p (some "") ft mn mx md
        = findCommand p none ft mn mx md) ∧
    (∀ p np mn mx md, findCommand p np (some "") mn mx md
        = findCommand p np none mn mx md) ∧
    (∀ p np ft mx md, findCommand p np ft (some "") mx md
        = findCommand p np ft none mx md) ∧
    (∀ p np ft mn md, findCommand p np ft mn (some "") md
        = findCommand p np ft mn none md) := by
  refine ⟨?_, ?_, ?_, ?_, ?_⟩ <;> intros <;> simp [psCommand, findCommand]

/-- C1 counterexample: a single invocation whose spawn times out leaves
the Call History empty — the claimed "exactly one entry per invocation,
including on failure" fails at N = 1. -/
theorem history_skips_timeout :
    (executeCommand initToolkit ["sleep", "60"] true .timedOut).2.history.length = 0 ∧
    ¬ (executeCommand initToolkit ["sleep", "60"] true
        .timedOut).2.history.length = 1 := by
  decide

/-- C1 amended: exactly one Execution Result is appended per invocation
whose child terminates normally, and per successful `cd`; the timeout,
launch-failure and failed-`cd` branches return early without appending,
leaving the history unchanged. -/
theorem history_append_discipline (st : ToolkitState) (command : List String)
    (co : Bool) (rc : Int) (out err msg : String) (p : Option String) :
    (executeCommand st command co (.completed rc out err)).2.history
        = st.history ++ [(executeCommand st command co (.completed rc out err)).1] ∧
    (executeCommand st command co .timedOut).2.history = st.history ∧
    (executeCommand st command co (.failed msg)).2.history = st.history ∧
    ((cd st p).1.success = true →
        (cd st p).2.history = st.history ++ [(cd st p).1]) ∧
    ((cd st p).1.success = false → (cd st p).2.history = st.history) := by
  refine ⟨rfl, rfl, rfl, ?_, ?_⟩ <;>
    · simp only [cd]
      split <;> simp

/-- Witness for `history_append_discipline` at a concrete state: a
successful `cd "."` appends its result. -/
theorem history_append_discipline_witness :
    (cd initToolkit (some ".")).2.history
      = initToolkit.history ++ [(cd initToolkit (some ".")).1] :=
  (history_append_discipline initToolkit ["ls"] true 0 "" "" "" (some ".")).2.2.2.1
    (by decide)

/-- C4: `cd` with no argument or with `"~"` targets the home directory;
with `"."` it leaves the working directory unchanged; with `".."` it
targets the parent (dirname) of the prior working directory; on success
each call reports the resulting working directory in
`summary.current_directory`, and no child process is spawned. -/
theorem cd_special_cases (st : ToolkitState)
    (hhome : st.os.home ∈ st.os.dirs)
    (hcwd : st.os.cwd ∈ st.os.dirs)
    (hparent : dirname st.os.cwd ∈ st.os.dirs) :
    ((cd st none).1.success = true ∧
      (cd st none).2.os.cwd = st.os.home ∧
      (cd st none).1.summary = some ("current_directory", st.os.home) ∧
      (cd st none).2.spawned = st.spawned) ∧
    cd st (some "~") = cd st none ∧
    ((cd st (some ".")).1.success = true ∧
      (cd st (some ".")).2.os.cwd = st.os.cwd ∧
      (cd st (some ".")).1.summary = some ("current_directory", st.os.cwd) ∧
      (cd st (some ".")).2.spawned = st.spawned) ∧
    ((cd st (some "..")).1.success = true ∧
      (cd st (some "..")).2.os.cwd = dirname st.os.cwd ∧
      (cd st (some "..")).1.summary
        = some ("current_directory", dirname st.os.cwd) ∧
      (cd st (some "..")).2.spawned = st.spawned) := by
  simp [cd, hhome, hcwd, hparent]

/-- Witness for `cd_special_cases` in a concrete environment: from
`/home/user/work`, `cd ".."` succeeds and lands in `/home/user`. -/
theorem cd_special_cases_witness :
    (cd initToolkit (some "..")).1.success = true ∧
    (cd initToolkit (some "..")).2.os.cwd = dirname initToolkit.os.cwd :=
  ⟨(cd_special_cases initToolkit (by decide) (by decide) (by decide)).2.2.2.1,
   (cd_special_cases initToolkit (by decide) (by decide) (by decide)).2.2.2.2.1⟩

/-- C10: for `who_am_i` and `pwd` the `summary` is attached exactly when
the result's success flag is true — on a zero exit the summary carries
the stripped captured standard output under `username` or
`current_directory`; on a non-zero exit, timeout, or launch failure the
result carries no summary. -/
theorem summary_iff_success (st : ToolkitState) (rc : Int) (out err msg : String) :
    ((who_am_i st (.completed rc out err)).1.success = true →
        (who_am_i st (.completed rc out err)).1.summary
          = some ("username", pyStrip out)) ∧
    ((who_am_i st (.completed rc out err)).1.success = false →
        (who_am_i st (.completed rc out err)).1.summary = none) ∧
    (who_am_i st .timedOut).1.summary = none ∧
    (who_am_i st (.failed msg)).1.summary = none ∧
    ((pwd st (.completed rc out err)).1.success = true →
        (pwd st (.completed rc out err)).1.summary
          = some ("current_directory", pyStrip out)) ∧
    ((pwd st (.completed rc out err)).1.success = false →
        (pwd st (.completed rc out err)).1.summary = none) ∧
    (pwd st .timedOut).1.summary = none ∧
    (pwd st (.failed msg)).1.summary = none := by
  by_cases h : rc = 0 <;>
    simp [who_am_i, pwd, executeCommand, h]

/-- Witness for `summary_iff_success`: `whoami` exiting 0 with output
" root\n" yields `summary.username = "root"`. -/
theorem summary_iff_success_witness :
    (who_am_i initToolkit (.completed 0 " root\n" "")).1.summary
      = some ("username", "root") := by
  have h := (summary_iff_success initToolkit 0 " root\n" "" "x").1 (by decide)
  exact h.trans (by decide)

/-- `Nat.toDigitsCore` never shortens its accumulator. -/
theorem toDigitsCore_length_le (b : Nat) (f n : Nat) (l : List Char) :
    l.length ≤ (Nat.toDigitsCore b f n l).length := by
  induction f generalizing n l with
  | zero => simp [Nat.toDigitsCore]
  | succ f ih =>
    simp only [Nat.toDigitsCore]
    split
    · simp
    · exact le_trans (by simp) (ih (n / b) _)

/-- `Nat.toDigits` produces at least one digit. -/
theorem toDigits_ne_nil (b n : Nat) : Nat.toDigits b n ≠ [] := by
  simp only [Nat.toDigits, Nat.toDigitsCore]
  split
  · simp
  · intro h
    have h2 := toDigitsCore_length_le b n (n / b) [Nat.digitChar (n % b)]
    rw [h] at h2
    simp at h2

/-- Appending to a non-empty string keeps it non-empty. -/
theorem append_ne_empty_left (a b : String) (ha : a ≠ "") : a ++ b ≠ "" := by
  intro h
  apply ha
  have h2 : a.data ++ b.data = [] := by
    simpa [String.data_append] using congrArg String.data h
  exact String.ext (List.append_eq_nil.mp h2).1

/-- `Nat.repr` is never the empty string. -/
theorem natRepr_ne_empty (n : Nat) : Nat.repr n ≠ "" := by
  intro h
  apply toDigits_ne_nil 10 n
  simpa [Nat.repr, List.asString, String.ext_iff] using h

/-- `toString` of an integer is never the empty string. -/
theorem intToString_ne_empty (i : Int) : toString i ≠ "" := by
  cases i with
  | ofNat m => exact natRepr_ne_empty m
  | negSucc m => exact append_ne_empty_left "-" _ (by decide)

/-- `','.join` of a list headed by a non-empty field is non-empty. -/
theorem joinComma_ne_empty (f : String) (rest : List String) (hf : f ≠ "") :
    joinComma (f :: rest) ≠ "" := by
  cases rest with
  | nil => simpa [joinComma] using hf
  | cons g gs => exact append_ne_empty_left _ _ (append_ne_empty_left f "," hf)

theorem ls_head (p : String) (lf af : Bool) (sb : Option String) :
    (lsCommand p lf af sb).head? = some "ls" := by
  rcases sb with _ | s <;> cases lf <;> cases af <;>
    simp only [lsCommand] <;> split_ifs <;> rfl

theorem ls_noEmpty (p : String) (lf af : Bool) (sb : Option String)
    (hp : p ≠ "") : "" ∉ lsCommand p lf af sb := by
  have hp' : "" ≠ p := Ne.symm hp
  rcases sb with _ | s <;> cases lf <;> cases af <;>
    simp only [lsCommand] <;> split_ifs <;> simp [hp']

theorem mkdir_head (d : String) (pa v : Bool) (m : Option Int) :
    (mkdirCommand d pa v m).head? = some "mkdir" := by
  rcases m with _ | x <;> cases pa <;> cases v <;> rfl

theorem mkdir_noEmpty (d : String) (pa v : Bool) (m : Option Int)
    (hd : d ≠ "") : "" ∉ mkdirCommand d pa v m := by
  have hd' : "" ≠ d := Ne.symm hd
  have hm : ∀ x : Int, "" ≠ "-m" ++ toOctalString x :=
    fun x => Ne.symm (append_ne_empty_left "-m" _ (by decide))
  rcases m with _ | x <;> cases pa <;> cases v <;>
    simp [mkdirCommand, hd', hm]

theorem touch_head (f : String) (c v : Bool) :
    (touchCommand f c v).head? = some "touch" := by
  cases c <;> cases v <;> rfl

theorem touch_noEmpty (f : String) (c v : Bool) (hf : f ≠ "") :
    "" ∉ touchCommand f c v := by
  have hf' : "" ≠ f := Ne.symm hf
  cases c <;> cases v <;> simp [touchCommand, hf']

theorem rm_head (ps : List String) (r f i v d : Bool) :
    (rmCommand ps r f i v d).head? = some "rm" := by
  cases r <;> cases f <;> cases i <;> cases v <;> cases d <;> rfl

theorem rm_noEmpty (ps : List String) (r f i v d : Bool)
    (hps : ∀ q ∈ ps, q ≠ "") : "" ∉ rmCommand ps r f i v d := by
  have hq : "" ∉ ps := fun h => hps "" h rfl
  cases r <;> cases f <;> cases i <;> cases v <;> cases d <;>
    simp [rmCommand, hq]

theorem chmod_head (p m : String) (r v : Bool) :
    (chmodCommand p m r v).head? = some "chmod" := by
  cases r <;> cases v <;> rfl

theorem chmod_noEmpty (p m : String) (r v : Bool) (hp : p ≠ "") (hm : m ≠ "") :
    "" ∉ chmodCommand p m r v := by
  have hp' : "" ≠ p := Ne.symm hp
  have hm' : "" ≠ m := Ne.symm hm
  cases r <;> cases v <;> simp [chmodCommand, hp', hm']

theorem chown_head (p o : String) (g : Option String) (r : Bool) :
    (chownCommand p o g r).head? = some "chown" := by
  rcases g with _ | gr <;> cases r <;>
    simp only [chownCommand] <;> split_ifs <;> rfl

theorem chown_noEmpty (p o : String) (g : Option String) (r : Bool)
    (hp : p ≠ "") (ho : o ≠ "") : "" ∉ chownCommand p o g r := by
  have hp' : "" ≠ p := Ne.symm hp
  have ho' : "" ≠ o := Ne.symm ho
  have hog : ∀ gr : String, "" ≠ o ++ ":" ++ gr :=
    fun gr => Ne.symm (append_ne_empty_left _ _ (append_ne_empty_left o ":" ho))
  rcases g with _ | gr <;> cases r <;>
    simp only [chownCommand] <;> split_ifs <;> simp [hp', ho', hog]

theorem ps_head (fl : Option String) (sa : Bool)
    (ff : Option (List String)) : (psCommand fl sa ff).head? = some "ps" := by
  rcases fl with _ | f <;> rcases ff with _ | fs <;> cases sa <;>
    simp only [psCommand] <;> split_ifs <;> rfl

theorem ps_noEmpty (fl : Option String) (sa : Bool)
    (ff : Option (List String))
    (hff : ∀ fs, ff = some fs → ∀ q ∈ fs, q ≠ "") :
    "" ∉ psCommand fl sa ff := by
  have key : ∀ fs : List String, fs ≠ [] → (∀ q ∈ fs, q ≠ "") →
      "" ≠ joinComma fs := by
    intro fs hne hq
    cases fs with
    | nil => exact absurd rfl hne
    | cons a as =>
      exact Ne.symm (joinComma_ne_empty a as (hq a (List.mem_cons_self a as)))
  rcases fl with _ | f <;> rcases ff with _ | fs
  · cases sa <;> simp [psCommand]
  · by_cases hfs : fs = []
    · cases sa <;> simp [psCommand, hfs]
    · have h1 : "" ≠ joinComma fs := key fs hfs (hff fs rfl)
      cases sa <;> simp [psCommand, hfs, h1]
  · by_cases hf : f = ""
    · cases sa <;> simp [psCommand, hf]
    · have h2 : "" ≠ f := Ne.symm hf
      cases sa <;> simp [psCommand, hf, h2]
  · by_cases hf : f = "" <;> by_cases hfs : fs = []
    · cases sa <;> simp [psCommand, hf, hfs]
    · have h1 : "" ≠ joinComma fs := key fs hfs (hff fs rfl)
      cases sa <;> simp [psCommand, hf, hfs, h1]
    · have h2 : "" ≠ f := Ne.symm hf
      cases sa <;> simp [psCommand, hf, hfs, h2]
    · have h1 : "" ≠ joinComma fs := key fs hfs (hff fs rfl)
      have h2 : "" ≠ f := Ne.symm hf
      cases sa <;> simp [psCommand, hf, hfs, h1, h2]

theorem kill_head (pid : Int) (sg : String) :
    (killCommand pid sg).head? = some "kill" := rfl

theorem kill_noEmpty (pid : Int) (sg : String) : "" ∉ killCommand pid sg := by
  have h1 : "" ≠ "-" ++ sg := Ne.symm (append_ne_empty_left "-" sg (by decide))
  have h2 : "" ≠ toString pid := Ne.symm (intToString_ne_empty pid)
  simp [killCommand, h1, h2]

theorem top_head (i : Int) (b : Bool) (s : String) (d : Int) :
    (topCommand i b s d).head? = some "top" := by
  simp only [topCommand]
  cases b <;> split_ifs <;> rfl

theorem top_noEmpty (i : Int) (b : Bool) (s : String) (d : Int) :
    "" ∉ topCommand i b s d := by
  have h1 : "" ≠ toString i := Ne.symm (intToString_ne_empty i)
  simp only [topCommand]
  cases b <;> split_ifs <;> simp [h1]

theorem free_head (h : Bool) : (freeCommand h).head? = some "free" := by
  cases h <;> rfl

theorem free_noEmpty (h : Bool) : "" ∉ freeCommand h := by
  cases h <;> simp [freeCommand]

theorem grep_head (pat fp : String) (ic r : Bool) :
    (grepCommand pat fp ic r).head? = some "grep" := by
  cases ic <;> cases r <;> rfl

theorem grep_noEmpty (pat fp : String) (ic r : Bool)
    (hpat : pat ≠ "") (hfp : fp ≠ "") : "" ∉ grepCommand pat fp ic r := by
  have h1 : "" ≠ pat := Ne.symm hpat
  have h2 : "" ≠ fp := Ne.symm hfp
  cases ic <;> cases r <;> simp [grepCommand, h1, h2]

theorem find_head (p : String) (np ft mn mx : Option String)
    (md : Option Int) : (findCommand p np ft mn mx md).head? = some "find" := by
  rcases np with _ | a <;> rcases ft with _ | b <;> rcases mn with _ | c <;>
    rcases mx with _ | d <;> rcases md with _ | e <;>
      simp only [findCommand] <;> (try split_ifs) <;> rfl

theorem find_noEmpty (p : String) (np ft mn mx : Option String)
    (md : Option Int) (hp : p ≠ "") : "" ∉ findCommand p np ft mn mx md := by
  have hp' : "" ≠ p := Ne.symm hp
  have hplus : ∀ s : String, "" ≠ "+" ++ s :=
    fun s => Ne.symm (append_ne_empty_left "+" s (by decide))
  have hminus : ∀ s : String, "" ≠ "-" ++ s :=
    fun s => Ne.symm (append_ne_empty_left "-" s (by decide))
  have hts : ∀ e : Int, "" ≠ toString e :=
    fun e => Ne.symm (intToString_ne_empty e)
  rcases np with _ | a <;> rcases ft with _ | b <;> rcases mn with _ | c <;>
    rcases mx with _ | d <;> rcases md with _ | e <;>
      simp only [findCommand] <;> (try split_ifs) <;>
        simp_all [eq_comm]

/-- C8 counterexample: `grep` passes its positional parameters through
verbatim, so an empty pattern yields an Invocation Request with an
empty-string element. -/
theorem builder_empty_positional :
    "" ∈ grepCommand "" "notes.txt" false false := by decide

/-- C8 amended: every builder's vector starts with the documented program
name, and builders never insert an empty flag element — an empty element
can arise only from a caller-supplied positional string (or, for
`ps`, a format field) that is itself empty. Whenever those caller-supplied
strings are non-empty, the constructed vector contains no empty-string
element. -/
theorem builders_no_empty_flag :
    ("" ∉ whoamiCommand ∧ "" ∉ pwdCommand) ∧
    (∀ p lf af sb, (lsCommand p lf af sb).head? = some "ls" ∧
        (p ≠ "" → "" ∉ lsCommand p lf af sb)) ∧
    (∀ d pa v m, (mkdirCommand d pa v m).head? = some "mkdir" ∧
        (d ≠ "" → "" ∉ mkdirCommand d pa v m)) ∧
    (∀ f c v, (touchCommand f c v).head? = some "touch" ∧
        (f ≠ "" → "" ∉ touchCommand f c v)) ∧
    (∀ ps r f i v d, (rmCommand ps r f i v d).head? = some "rm" ∧
        ((∀ q ∈ ps, q ≠ "") → "" ∉ rmCommand ps r f i v d)) ∧
    (∀ p m r v, (chmodCommand p m r v).head? = some "chmod" ∧
        (p ≠ "" → m ≠ "" → "" ∉ chmodCommand p m r v)) ∧
    (∀ p o g r, (chownCommand p o g r).head? = some "chown" ∧
        (p ≠ "" → o ≠ "" → "" ∉ chownCommand p o g r)) ∧
    (∀ fl sa ff, (psCommand fl sa ff).head? = some "ps" ∧
        ((∀ fs, ff = some fs → ∀ q ∈ fs, q ≠ "") → "" ∉ psCommand fl sa ff)) ∧
    (∀ pid sg, (killCommand pid sg).head? = some "kill" ∧
        "" ∉ killCommand pid sg) ∧
    (∀ i b s d, (topCommand i b s d).head? = some "top" ∧
        "" ∉ topCommand i b s d) ∧
    (∀ h, (freeCommand h).head? = some "free" ∧ "" ∉ freeCommand h) ∧
    (∀ pat fp ic r, (grepCommand pat fp ic r).head? = some "grep" ∧
        (pat ≠ "" → fp ≠ "" → "" ∉ grepCommand pat fp ic r)) ∧
    (∀ p np ft mn mx md, (findCommand p np ft mn mx md).head? = some "find" ∧
        (p ≠ "" → "" ∉ findCommand p np ft mn mx md)) := by
  refine ⟨⟨by decide, by decide⟩, ?_, ?_, ?_, ?_, ?_, ?_, ?_, ?_, ?_, ?_, ?_, ?_⟩
  · exact fun p lf af sb => ⟨ls_head p lf af sb, ls_noEmpty p lf af sb⟩
  · exact fun d pa v m => ⟨mkdir_head d pa v m, mkdir_noEmpty d pa v m⟩
  · exact fun f c v => ⟨touch_head f c v, touch_noEmpty f c v⟩
  · exact fun ps r f i v d => ⟨rm_head ps r f i v d, rm_noEmpty ps r f i v d⟩
  · exact fun p m r v => ⟨chmod_head p m r v, fun hp hm => chmod_noEmpty p m r v hp hm⟩
  · exact fun p o g r => ⟨chown_head p o g r, fun hp ho => chown_noEmpty p o g r hp ho⟩
  · exact fun fl sa ff => ⟨ps_head fl sa ff, ps_noEmpty fl sa ff⟩
  · exact fun pid sg => ⟨kill_head pid sg, kill_noEmpty pid sg⟩
  · exact fun i b s d => ⟨top_head i b s d, top_noEmpty i b s d⟩
  · exact fun h => ⟨free_head h, free_noEmpty h⟩
  · exact fun pat fp ic r =>
      ⟨grep_head pat fp ic r, fun h1 h2 => grep_noEmpty pat fp ic r h1 h2⟩
  · exact fun p np ft mn mx md =>
      ⟨find_head p np ft mn mx md, find_noEmpty p np ft mn mx md⟩

/-- Witness for `builders_no_empty_flag` at concrete inputs: a `grep` call
with non-empty positionals and an `mkdir` call with a mode flag contain no
empty element. -/
theorem builders_no_empty_flag_witness :
    "" ∉ grepCommand "TODO" "notes.txt" true false ∧
    "" ∉ mkdirCommand "build" true false (some 0o755) :=
  ⟨(builders_no_empty_flag.2.2.2.2.2.2.2.2.2.2.2.1 "TODO" "notes.txt" true false).2
      (by decide) (by decide),
   (builders_no_empty_flag.2.2.1 "build" true false (some 0o755)).2 (by decide)⟩
